import Mathlib

/-!
Verification of the muslim-companion backup/recovery subsystem.

Shallow embedding of the Python sources under:
- quran_backend/core/utils/retry.py
- muslim-companion/backend/core/services/backup.py
- quran_backend/core/services/recovery.py
- quran_backend/core/services/encryption.py
- quran_backend/core/tasks.py (enforce_backup_retention_policy)
- quran_backend/core/models.py (BackupStatus.get_success_rate)
- quran_backend/core/management/commands/restore_from_backup.py

Python exceptions become an explicit error type; each stateful operation is a
pure function over an environment record describing the outcomes of its
external calls (subprocess runs, object-store calls, key-management calls),
returning the raised/returned value together with instrumentation counters
(number of external invocations, whether the scratch directory was removed).
-/

namespace MuslimCompanion

/-- Exception kinds of the embedded code (core/exceptions.py plus the library
exceptions the services interact with).  `TransientError` and `NetworkError`
are the only members of the retry decorator's default `exceptions` tuple;
`BackupFailedError`, `RestoreFailedError`, `EncryptionFailedError` and
`IntegrityCheckFailedError` derive from `APIException` only. -/
inductive Exc where
  | transientError (msg : String)
  | networkError (msg : String)
  | backupFailed (msg : String)
  | restoreFailed (msg : String)
  | encryptionFailed (msg : String)
  | integrityCheckFailed (msg : String)
  | clientError (msg : String)
  | calledProcessError (returncode : Int) (stderr : String) (stdout : String)
  | timeoutExpired (timeout : Nat)
  | osError (msg : String)
  | otherError (msg : String)
  deriving Repr, DecidableEq

/-- Outcome of one invocation of an external call or of a wrapped function:
either a returned value or a raised exception. -/
inductive Attempt (α : Type) where
  | ok (a : α)
  | error (e : Exc)
  deriving Repr, DecidableEq

/-- The default `exceptions=(TransientError, NetworkError)` tuple of
`retry_with_exponential_backoff` (retry.py line 31), as an `isinstance`
test on the raised exception. -/
def isRetryableDefault : Exc → Bool
  | .transientError _ => true
  | .networkError _ => true
  | _ => false

/-- The retry loop of `retry_with_exponential_backoff.wrapper`
(retry.py lines 76-122): `for retry_num in range(1, max_retries + 1)`
re-invokes the function after a sleep; a success returns, a failure matching
the `exceptions` tuple becomes the new `last_exception` and the loop
continues, any other exception propagates out of the loop; when the loop
ends, `last_exception` is raised.  `f i` is the outcome of the i-th
invocation of the wrapped function (0-based); `calls` counts invocations
made so far; `remaining` is the number of loop iterations left. -/
def retryLoop (retryable : Exc → Bool) (f : Nat → Attempt α) :
    (remaining calls : Nat) → Exc → Except Exc α × Nat
  | 0, calls, lastExc => (Except.error lastExc, calls)
  | remaining + 1, calls, lastExc =>
    match f calls with
    | .ok a => (Except.ok a, calls + 1)
    | .error e =>
      if retryable e then retryLoop retryable f remaining (calls + 1) e
      else (Except.error e, calls + 1)

/-- `retry_with_exponential_backoff(max_retries, delays, exceptions)` applied
to a function whose i-th invocation yields `f i` (retry.py lines 56-124):
the first attempt is made outside the loop; a success returns immediately, a
failure not matching the `exceptions` tuple propagates immediately, a
matching failure enters the retry loop.  Returns the final outcome together
with the total number of invocations of the wrapped function. -/
def retry_with_exponential_backoff (retryable : Exc → Bool) (maxRetries : Nat)
    (f : Nat → Attempt α) : Except Exc α × Nat :=
  match f 0 with
  | .ok a => (Except.ok a, 1)
  | .error e =>
    if retryable e then retryLoop retryable f maxRetries 1 e
    else (Except.error e, 1)

/-- The retry delay chosen for retry number `retryNum` (1-based):
`delays[min(retry_num - 1, len(delays) - 1)]` (retry.py line 78). -/
def delayForRetry (delays : List ℚ) (retryNum : Nat) : ℚ :=
  delays.getD (min (retryNum - 1) (delays.length - 1)) 0

/-- The `str(e)`-style message the handlers interpolate into their wrapped
error messages. -/
def excMessage : Exc → String
  | .transientError m => m
  | .networkError m => m
  | .backupFailed m => m
  | .restoreFailed m => m
  | .encryptionFailed m => m
  | .integrityCheckFailed m => m
  | .clientError m => m
  | .calledProcessError _ se _ => se
  | .timeoutExpired t => toString t
  | .osError m => m
  | .otherError m => m

/-! ## BackupService (muslim-companion/backend/core/services/backup.py) -/

/-- Outcome of the external `pg_dump` subprocess run (backup.py 224-231). -/
inductive PgDumpOutcome where
  | ok (stderr : String)
  | timeout (t : Nat)
  | nonZeroExit (returncode : Int) (stderr : String) (stdout : String)
  deriving Repr, DecidableEq

/-- `BackupService._execute_pg_dump` (backup.py 176-255): a
`subprocess.TimeoutExpired` is converted to `BackupFailedError`; a
`subprocess.CalledProcessError` (non-zero exit) is logged and re-raised
unchanged (line 255). -/
def execute_pg_dump : PgDumpOutcome → Except Exc Unit
  | .ok _ => .ok ()
  | .timeout t =>
    .error (.backupFailed ("Database dump timed out after " ++ toString t ++ " seconds"))
  | .nonZeroExit rc se so => .error (.calledProcessError rc se so)

/-- Outcome of one of the local pipeline steps following the dump
(compression, checksum, metadata collection): these raise `OSError` on
filesystem failure or arbitrary exceptions otherwise, and no step of the
pipeline other than the dump raises `subprocess.CalledProcessError`. -/
inductive StepOutcome where
  | ok
  | osError (msg : String)
  | otherError (msg : String)
  deriving Repr, DecidableEq

def runStep : StepOutcome → Except Exc Unit
  | .ok => .ok ()
  | .osError m => .error (.osError m)
  | .otherError m => .error (.otherError m)

/-- Environment of one `create_backup` run: the outcomes of the dump
subprocess and of the compress / checksum / metadata steps. -/
structure BackupEnv where
  dump : PgDumpOutcome
  compress : StepOutcome
  checksum : StepOutcome
  metadata : StepOutcome
  deriving Repr, DecidableEq

/-- The body of the `try` block of `create_backup` (backup.py 89-127):
dump, then compress, then checksum, then metadata, sequentially; the first
raised exception aborts the pipeline. -/
def backupPipeline (env : BackupEnv) : Except Exc Unit := do
  execute_pg_dump env.dump
  runStep env.compress
  runStep env.checksum
  runStep env.metadata

/-- Result of a `create_backup` run: the returned value or raised error,
and whether the scratch directory (`temp_dir`) was removed before
returning/propagating. -/
structure BackupRunResult where
  outcome : Except Exc Unit
  tempDirRemoved : Bool
  deriving Repr

/-- `BackupService.create_backup` (backup.py 63-174).  The `except` clauses
in source order: `subprocess.CalledProcessError` (lines 129-143, wraps into
`BackupFailedError`, performs NO scratch-directory cleanup), `OSError`
(lines 145-159, removes `temp_dir`, wraps), `Exception` (lines 161-174,
removes `temp_dir`, wraps).  On success the scratch directory is left in
place: its cleanup is the caller's responsibility (line 126). -/
def create_backup (env : BackupEnv) : BackupRunResult :=
  match backupPipeline env with
  | .ok _ => { outcome := .ok (), tempDirRemoved := false }
  | .error e =>
    match e with
    | .calledProcessError _ se _ =>
      { outcome := .error (.backupFailed ("Database dump failed: " ++ se))
        tempDirRemoved := false }
    | .osError m =>
      { outcome := .error (.backupFailed ("Backup file operation failed: " ++ m))
        tempDirRemoved := true }
    | e =>
      { outcome := .error (.backupFailed ("Backup failed: " ++ excMessage e))
        tempDirRemoved := true }

/-- Whether the dump subprocess exited non-zero (the
`subprocess.CalledProcessError` case). -/
def dumpNonZeroExit (env : BackupEnv) : Bool :=
  match env.dump with
  | .nonZeroExit _ _ _ => true
  | _ => false

/-- Boolean success test on an `Except` result. -/
def exceptIsOk : Except Exc α → Bool
  | .ok _ => true
  | .error _ => false

/-- The body of the `try` block of `BackupService.upload_to_s3`
(backup.py 379-442): a successful `put_object` returns `True`; a
`botocore.ClientError` is wrapped into `BackupFailedError` (line 429); any
other exception is wrapped into `BackupFailedError` as well (line 442).
No exception of a kind in the retry decorator's `exceptions` tuple ever
escapes this body. -/
def upload_to_s3_body : Attempt Unit → Attempt Bool
  | .ok _ => .ok true
  | .error (.clientError m) => .error (.backupFailed ("S3 upload failed: " ++ m))
  | .error e => .error (.backupFailed ("S3 upload failed: " ++ excMessage e))

/-- `BackupService.upload_to_s3` (backup.py 354-442), decorated with
`@retry_with_exponential_backoff(max_retries=3, delays=(2.0, 4.0, 8.0))`
(line 354) and hence using the decorator's default
`exceptions=(TransientError, NetworkError)` tuple.  `putObject i` is the
outcome of the i-th `s3_client.put_object` call.  Returns the final result
and the number of invocations of the function body. -/
def upload_to_s3 (putObject : Nat → Attempt Unit) : Except Exc Bool × Nat :=
  retry_with_exponential_backoff isRetryableDefault 3
    (fun i => upload_to_s3_body (putObject i))

/-! ## RecoveryService (quran_backend/core/services/recovery.py) -/

/-- Outcome of the external `psql` restore subprocess run
(recovery.py 370-377). -/
inductive PsqlOutcome where
  | ok (stderr : String)
  | timeout (t : Nat)
  | nonZeroExit (returncode : Int) (stderr : String) (stdout : String)
  deriving Repr, DecidableEq

/-- Result of a `restore_database` call: the returned value or raised
error, plus the number of times the external `psql` restore utility was
invoked. -/
structure RestoreCall where
  result : Except Exc Bool
  psqlCalls : Nat
  deriving Repr

/-- The production-gate message raised by `restore_database`
(recovery.py 344-348). -/
def productionGateMsg : String :=
  "CRITICAL: Production database restore requires dual authorization. " ++
  "This operation should only be performed with explicit approval. " ++
  "Use --skip-confirmation flag if this is approved."

/-- `RecoveryService.restore_database` (recovery.py 304-420).  The safety
gate (lines 342-350) fires before the `psql` command is even built: when
`target_db == "production"` and `skip_confirmation` is falsy it raises
`RestoreFailedError` with the `psql` subprocess never run.  Otherwise
`psql` runs once; a timeout or non-zero exit is wrapped into
`RestoreFailedError`. -/
def restore_database (sqlFile targetDb : String) (skipConfirmation : Bool)
    (psql : PsqlOutcome) : RestoreCall :=
  if targetDb = "production" ∧ ¬ skipConfirmation then
    { result := .error (.restoreFailed productionGateMsg), psqlCalls := 0 }
  else
    match psql with
    | .ok _ => { result := .ok true, psqlCalls := 1 }
    | .timeout t =>
      { result := .error (.restoreFailed
          ("Database restore timed out after " ++ toString t ++ " seconds"))
        psqlCalls := 1 }
    | .nonZeroExit _ se _ =>
      { result := .error (.restoreFailed ("Database restore failed: " ++ se))
        psqlCalls := 1 }

/-- `RecoveryService.download_backup` (recovery.py 144-186), decorated
with `@retry_with_exponential_backoff(max_retries=3, delays=(2.0, 4.0, 8.0))`
(line 144).  The body only catches `botocore.ClientError`, wrapping it into
`RestoreFailedError`; any other exception escapes the body unchanged.
`s3Download i` is the outcome of the i-th `s3_client.download_file`
call. -/
def download_backup (s3Download : Nat → Attempt Unit) : Except Exc Unit × Nat :=
  retry_with_exponential_backoff isRetryableDefault 3
    (fun i =>
      match s3Download i with
      | .ok _ => .ok ()
      | .error (.clientError m) =>
        .error (.restoreFailed ("Failed to download backup: " ++ m))
      | .error e => .error e)

/-- The body of `EncryptionService.decrypt_file` (encryption.py 167-281)
at the control-flow level: reject paths without the `.enc` suffix
(lines 185-188, raised before the `try` block but inside the decorated
function), and otherwise wrap both a KMS `ClientError` (line 267) and any
other exception (line 281) into `EncryptionFailedError`.  `o` is the
combined outcome of the file parse / KMS decrypt / cipher steps. -/
def decrypt_file_body (path : String) (o : Attempt Unit) : Attempt Unit :=
  if ¬ path.endsWith ".enc" then
    .error (.encryptionFailed "File must have .enc extension for decryption")
  else
    match o with
    | .ok _ => .ok ()
    | .error e => .error (.encryptionFailed ("Decryption failed: " ++ excMessage e))

/-- `EncryptionService.decrypt_file` run behaviour: the body above under
its `@retry_with_exponential_backoff(max_retries=3, delays=(2.0, 4.0, 8.0))`
decorator (encryption.py 167). -/
def decrypt_file_run (decryptStep : Nat → Attempt Unit) (path : String) :
    Except Exc Unit × Nat :=
  retry_with_exponential_backoff isRetryableDefault 3
    (fun i => decrypt_file_body path (decryptStep i))

/-- `RecoveryService.decrypt_backup` (recovery.py 188-216): any exception
raised by `decrypt_file` is wrapped into `RestoreFailedError`. -/
def decrypt_backup (decryptStep : Nat → Attempt Unit) (path : String) :
    Except Exc Unit :=
  match (decrypt_file_run decryptStep path).1 with
  | .ok _ => .ok ()
  | .error e => .error (.restoreFailed ("Failed to decrypt backup: " ++ excMessage e))

/-- `RecoveryService.decompress_backup` (recovery.py 218-246): an
`OSError`/`IOError` is wrapped into `RestoreFailedError`; any other
exception propagates unchanged. -/
def decompress_backup : StepOutcome → Except Exc Unit
  | .ok => .ok ()
  | .osError m => .error (.restoreFailed ("Failed to decompress backup: " ++ m))
  | .otherError m => .error (.otherError m)

/-- `RecoveryService.verify_backup_integrity` (recovery.py 248-302):
compares the SHA-256 of the local file against the expected checksum and
raises `IntegrityCheckFailedError` on mismatch.  Present in the component,
but `full_recovery_workflow` never calls it (the call at recovery.py 485
is commented out). -/
def verify_backup_integrity (actualChecksum expectedChecksum : String) :
    Except Exc Bool :=
  if actualChecksum ≠ expectedChecksum then
    .error (.integrityCheckFailed
      ("Checksum mismatch: expected " ++ expectedChecksum ++ ", got " ++ actualChecksum))
  else .ok true

/-- Environment of one `full_recovery_workflow` run: the outcomes of each
external interaction.  `headObject` is the outcome of
`s3_client.head_object`, carrying the `checksum` entry of the stored
metadata (the Python code reads it with
`response.get("Metadata", {}).get("checksum", "")`, so an absent checksum
and an empty one are both the empty string). -/
structure RecoveryEnv where
  headObject : Attempt String
  s3Download : Nat → Attempt Unit
  decryptStep : Nat → Attempt Unit
  decompress : StepOutcome
  psql : PsqlOutcome

/-- Result of a `full_recovery_workflow` run with instrumentation
counters: how often `head_object`, `verify_backup_integrity` and the
external `psql` utility were invoked. -/
structure RecoveryRun where
  outcome : Except Exc Unit
  headObjectCalls : Nat
  verifyIntegrityCalls : Nat
  psqlCalls : Nat
  deriving Repr

/-- The outer `except Exception` handler of `full_recovery_workflow`
(recovery.py 507-514): every failure is wrapped into
`RestoreFailedError("Recovery workflow failed: ...")`. -/
def wrapRecoveryExc (e : Exc) : Exc :=
  .restoreFailed ("Recovery workflow failed: " ++ excMessage e)

/-- `RecoveryService.full_recovery_workflow` (recovery.py 422-514).
Steps: derive the object key, `head_object` for the stored checksum
(fail when it is absent/empty, line 468-469), download (retry-wrapped),
decrypt, (the integrity-verification step at line 485 is commented out
and never invoked), decompress, then `restore_database` with the same
`target_db`/`skip_confirmation`.  Any raised exception is wrapped by the
outer handler. -/
def full_recovery_workflow (env : RecoveryEnv)
    (targetDb : String) (skipConfirmation : Bool) : RecoveryRun :=
  match env.headObject with
  | .error e =>
    { outcome := .error (wrapRecoveryExc e)
      headObjectCalls := 1, verifyIntegrityCalls := 0, psqlCalls := 0 }
  | .ok expectedChecksum =>
    if expectedChecksum = "" then
      { outcome := .error (wrapRecoveryExc (.restoreFailed "No checksum found in S3 metadata"))
        headObjectCalls := 1, verifyIntegrityCalls := 0, psqlCalls := 0 }
    else
      match (download_backup env.s3Download).1 with
      | .error e =>
        { outcome := .error (wrapRecoveryExc e)
          headObjectCalls := 1, verifyIntegrityCalls := 0, psqlCalls := 0 }
      | .ok _ =>
        match decrypt_backup env.decryptStep "db_backup.sql.gz.enc" with
        | .error e =>
          { outcome := .error (wrapRecoveryExc e)
            headObjectCalls := 1, verifyIntegrityCalls := 0, psqlCalls := 0 }
        | .ok _ =>
          match decompress_backup env.decompress with
          | .error e =>
            { outcome := .error (wrapRecoveryExc e)
              headObjectCalls := 1, verifyIntegrityCalls := 0, psqlCalls := 0 }
          | .ok _ =>
            match restore_database "db_backup.sql" targetDb skipConfirmation env.psql with
            | ⟨.error e, psqlCalls⟩ =>
              { outcome := .error (wrapRecoveryExc e)
                headObjectCalls := 1, verifyIntegrityCalls := 0
                psqlCalls := psqlCalls }
            | ⟨.ok _, psqlCalls⟩ =>
              { outcome := .ok ()
                headObjectCalls := 1, verifyIntegrityCalls := 0
                psqlCalls := psqlCalls }

/-! ## Calendar model for the retention policy (quran_backend/core/tasks.py)

The retention task parses the date embedded in each object key with
`datetime.strptime(date_str, "%Y-%m-%d")` and computes
`(now - backup_date).days` where `backup_date` is midnight UTC of the
parsed proleptic-Gregorian date.  Dates are embedded through their rata
die day number (day 1 = 0001-01-01, a Monday), which matches Python
`datetime.toordinal()`. -/

def isLeapYear (y : Nat) : Bool :=
  (y % 4 == 0 && y % 100 != 0) || y % 400 == 0

def daysInMonth (y m : Nat) : Nat :=
  if m = 2 then (if isLeapYear y then 29 else 28)
  else if m = 4 ∨ m = 6 ∨ m = 9 ∨ m = 11 then 30
  else 31

structure Date where
  year : Nat
  month : Nat
  day : Nat
  deriving Repr, DecidableEq

/-- Leap years among years 1..y of the proleptic Gregorian calendar. -/
def leapsBefore (y : Nat) : Nat := y / 4 - y / 100 + y / 400

def daysBeforeYear (y : Nat) : Nat := 365 * (y - 1) + leapsBefore (y - 1)

def daysBeforeMonth (y m : Nat) : Nat :=
  (List.range (m - 1)).foldl (fun acc i => acc + daysInMonth y (i + 1)) 0

/-- Rata die day number: `Date.toordinal` of Python, day 1 = 0001-01-01. -/
def rataDie (d : Date) : Nat :=
  daysBeforeYear d.year + daysBeforeMonth d.year d.month + d.day

/-- Python `date.weekday()`: Monday = 0 .. Sunday = 6.
0001-01-01 (rata die 1) was a Monday. -/
def pyWeekday (d : Date) : Nat := (rataDie d - 1) % 7

/-- Python `str.split(sep)` for a one-character separator, over the
character list of the string (`"".split(sep) == [""]`,
`"a//b".split("/") == ["a", "", "b"]`). -/
def splitOnChar (sep : Char) : List Char → List (List Char)
  | [] => [[]]
  | c :: cs =>
    match splitOnChar sep cs with
    | r :: rs => if c = sep then [] :: r :: rs else (c :: r) :: rs
    | [] => if c = sep then [[], []] else [[c]]

def isDigitSeg (cs : List Char) : Bool :=
  cs.length > 0 && cs.all Char.isDigit

/-- Numeric value of an all-digit character run. -/
def digitsToNat (cs : List Char) : Nat :=
  cs.foldl (fun acc c => acc * 10 + (c.toNat - 48)) 0

/-- The `%d` directive of CPython `_strptime`
(`3[01]|[12]\d|0[1-9]|[1-9]| [1-9]`): one or two ASCII digits, or an
ASCII space (`Char.ofNat 32`) followed by a digit 1-9; yields the day
value.  Two-digit runs valued 00 or 32-99 are not matched by the pattern
(the whole string must be consumed), which coincides with yielding the
value here and failing the later day-of-month range check, since no
month has more than 31 days. -/
def parseDaySeg (cs : List Char) : Option Nat :=
  if isDigitSeg cs && cs.length ≤ 2 then some (digitsToNat cs)
  else
    match cs with
    | [sp, c] =>
      if sp = Char.ofNat 32 ∧ 49 ≤ c.toNat ∧ c.toNat ≤ 57 then
        some (c.toNat - 48)
      else none
    | _ => none

/-- `datetime.strptime(s, "%Y-%m-%d")` over ASCII strings, following the
CPython `_strptime` compiled pattern and the `datetime` constructor:
`%Y` is exactly four digits (`\d\d\d\d`), `%m` is one or two digits
valued 1-12 (`1[0-2]|0[1-9]|[1-9]`), `%d` is as in `parseDaySeg`, the
two literal dashes separate the fields, the whole string must be
consumed, and the constructor then requires year ≥ 1 and a day valid for
the month (`0000-01-01` and `2025-02-30` raise `ValueError`, while
`0999-09-08`, `2025-9-8` and a space-padded `2025-09- 8` parse). -/
def parseDate (s : String) : Option Date :=
  match splitOnChar (Char.ofNat 45) s.toList with
  -- Char.ofNat 45 is the dash separator of "%Y-%m-%d"
  | [ys, ms, ds] =>
    if isDigitSeg ys && ys.length = 4 && isDigitSeg ms && ms.length ≤ 2 then
      match parseDaySeg ds with
      | some d =>
        let y := digitsToNat ys
        let m := digitsToNat ms
        if 1 ≤ y ∧ 1 ≤ m ∧ m ≤ 12 ∧ 1 ≤ d ∧ d ≤ daysInMonth y m then
          some ⟨y, m, d⟩
        else none
      | none => none
    else none
  | _ => none

/-- `s3_key.split("/")[1]` parsed as a date (tasks.py 416-424): an
`IndexError` (fewer than two segments) or a `ValueError` (strptime
failure) makes the object be skipped. -/
def parseKeyDate (key : String) : Option Date :=
  -- Char.ofNat 47 is the slash separator of the object-key path
  match (splitOnChar (Char.ofNat 47) key.toList)[1]? with
  | none => none
  | some seg => parseDate (String.mk seg)

/-- A current UTC instant: the rata die number of the current day plus the
seconds elapsed since midnight (`secs < 86400` for a real instant). -/
structure Instant where
  days : Nat
  secs : Nat
  deriving Repr, DecidableEq

/-- `(now - backup_date).days` of Python: `timedelta.days` floors the
signed difference to whole days (`Int.fdiv`), with `backup_date` at
midnight UTC of the parsed date. -/
def timedeltaDays (now : Instant) (d : Date) : Int :=
  Int.fdiv ((now.days * 86400 + now.secs : Int) - (rataDie d * 86400 : Int)) 86400

/-- Retention windows: the `settings` defaults
`BACKUP_RETENTION_DAYS_DAILY/WEEKLY/MONTHLY` (tasks.py). -/
def retentionDaysDaily : Nat := 30
def retentionDaysWeekly : Nat := 90
def retentionDaysMonthly : Nat := 365

/-- The per-object deletion decision of `enforce_backup_retention_policy`
(tasks.py 428-456): first matching rule wins — day-of-month 1 is a
monthly backup kept 365 days, else a Sunday (`weekday() == 6`) is a
weekly backup kept 90 days, else a daily backup kept 30 days; delete when
the age strictly exceeds the window. -/
def shouldDeleteBackup (now : Instant) (d : Date) : Bool :=
  let ageDays := timedeltaDays now d
  if d.day = 1 then ageDays > (retentionDaysMonthly : Int)
  else if pyWeekday d = 6 then ageDays > (retentionDaysWeekly : Int)
  else ageDays > (retentionDaysDaily : Int)

/-- One listed object of the store. -/
structure S3Object where
  key : String
  size : Nat
  deriving Repr, DecidableEq

/-- The selection performed by the listing loop of
`enforce_backup_retention_policy` (tasks.py 411-461): objects whose key
fails to parse are skipped (`continue`), the rest are appended to
`backups_to_delete` when the policy says so. -/
def backups_to_delete (now : Instant) (objs : List S3Object) : List S3Object :=
  objs.filter fun o =>
    match parseKeyDate o.key with
    | none => false
    | some d => shouldDeleteBackup now d

/-! ## BackupStatus ledger (quran_backend/core/models.py) -/

inductive BackupStatusKind where
  | success
  | failed
  | inProgress
  deriving Repr, DecidableEq

/-- One row of the `BackupStatus` ledger, with `backup_date` as a
timestamp on an arbitrary totally-ordered axis. -/
structure BackupRecord where
  backupDate : Int
  status : BackupStatusKind
  deriving Repr, DecidableEq

/-- `BackupStatus.get_success_rate` (models.py 83-109): `cutoff = now -
timedelta(days=days)`; `total` counts rows with `backup_date >= cutoff`;
returns `0.0` when `total == 0`, else the count of rows with
`backup_date >= cutoff` and `status == "success"` over `total`, times
100.  Exact rational arithmetic stands in for Python floats (all
quantities involved are ratios of machine-size integers, exact in
doubles for the sizes at play). -/
def get_success_rate (records : List BackupRecord) (cutoff : Int) : ℚ :=
  let total := (records.filter fun r => decide (cutoff ≤ r.backupDate)).length
  if total = 0 then 0
  else
    ((records.filter fun r =>
        decide (cutoff ≤ r.backupDate) && r.status == .success).length : ℚ)
      / (total : ℚ) * 100

/-- The spec's wording of the same quantity: restrict to the in-window
records, then `successful_count / total_count_in_window * 100`, and `0.0`
for an empty window. -/
def success_rate_spec (records : List BackupRecord) (cutoff : Int) : ℚ :=
  let inWindow := records.filter fun r => decide (cutoff ≤ r.backupDate)
  if inWindow.length = 0 then 0
  else
    ((inWindow.filter fun r => r.status == .success).length : ℚ)
      / (inWindow.length : ℚ) * 100

/-! ## Operator command (core/management/commands/restore_from_backup.py) -/

/-- Outcome of `Command.handle` on its restore path. -/
inductive CommandOutcome where
  | commandError (msg : String)
  | cancelled
  | restored
  deriving Repr, DecidableEq

/-- Result of a `Command.handle` run with instrumentation: how often
`full_recovery_workflow` and (through it) the external `psql` utility
were invoked. -/
structure CommandRun where
  outcome : CommandOutcome
  workflowCalls : Nat
  psqlCalls : Nat
  deriving Repr, DecidableEq

/-- The confirmation phrase demanded at restore_from_backup.py line 99. -/
def confirmationPhrase : String := "RESTORE PRODUCTION"

/-- `Command.handle` (restore_from_backup.py 52-130) on the restore path
(no `--list`): validate the date string with `strptime` (lines 74-78,
`CommandError` on failure); when the target is production and
`--skip-confirmation` was not passed, prompt and abort unless the operator
types exactly `RESTORE PRODUCTION` (lines 85-102); then call
`full_recovery_workflow(date, target, skip_confirmation)`, turning any
raised exception into a `CommandError` (lines 111-130). -/
def commandHandle (env : RecoveryEnv) (dateStr target : String)
    (skipConfirmation : Bool) (typed : String) : CommandRun :=
  match parseDate dateStr with
  | none =>
    { outcome := .commandError "Invalid date format. Use YYYY-MM-DD"
      workflowCalls := 0, psqlCalls := 0 }
  | some _ =>
    if target = "production" ∧ ¬ skipConfirmation ∧ typed ≠ confirmationPhrase then
      { outcome := .cancelled, workflowCalls := 0, psqlCalls := 0 }
    else
      match full_recovery_workflow env target skipConfirmation with
      | ⟨.ok _, _, _, psqlCalls⟩ =>
        { outcome := .restored, workflowCalls := 1, psqlCalls := psqlCalls }
      | ⟨.error e, _, _, psqlCalls⟩ =>
        { outcome := .commandError ("Restore failed: " ++ excMessage e)
          workflowCalls := 1, psqlCalls := psqlCalls }

/-! ## EnvelopeEncryptionService byte layout
(quran_backend/core/services/encryption.py)

Files are byte lists (each entry a byte 0-255; the algebra below never
needs the bound).  AES-256 is an opaque keyed block permutation on
16-byte blocks, passed in as `E`/`D`; the key-management service's
`generate_data_key` result is a `DataKey` (plaintext and wrapped copy)
and its `decrypt` is an opaque `kmsUnwrap`. -/

/-- `struct.pack(">I", n)`: 4-byte big-endian encoding. -/
def be32 (n : Nat) : List Nat :=
  [n / 2 ^ 24 % 256, n / 2 ^ 16 % 256, n / 2 ^ 8 % 256, n % 256]

/-- `struct.unpack(">I", bs)[0]` on a 4-byte read. -/
def readBe32 : List Nat → Nat
  | [a, b, c, d] => ((a * 256 + b) * 256 + c) * 256 + d
  | _ => 0

/-- PKCS#7 padding to the 16-byte AES block size
(`padding.PKCS7(128).padder()`, encryption.py 105-106). -/
def pkcs7Pad (bs : List Nat) : List Nat :=
  let padLen := 16 - bs.length % 16
  bs ++ List.replicate padLen padLen

/-- PKCS#7 unpadding (`padding.PKCS7(128).unpadder()`,
encryption.py 234-235): the data must be a non-zero multiple of the block
size, the final byte k must satisfy 1 ≤ k ≤ 16, and the last k bytes must
all equal k; strip them.  `none` models the padding error. -/
def pkcs7Unpad (bs : List Nat) : Option (List Nat) :=
  match bs.getLast? with
  | none => none
  | some k =>
    if bs.length % 16 = 0 ∧ 1 ≤ k ∧ k ≤ 16 ∧ k ≤ bs.length
        ∧ ∀ x ∈ bs.drop (bs.length - k), x = k then
      some (bs.take (bs.length - k))
    else none

/-- Split a byte list into consecutive 16-byte blocks (the block
iteration the CBC cipher object performs). -/
def chunk16 (bs : List Nat) : List (List Nat) :=
  if bs = [] then []
  else bs.take 16 :: chunk16 (bs.drop 16)
termination_by bs.length
decreasing_by
  rename_i h
  have : 0 < bs.length := List.length_pos.mpr h
  simp only [List.length_drop]
  omega

/-- Byte-wise XOR of two equal-length blocks. -/
def xorBytes (a b : List Nat) : List Nat := List.zipWith (fun x y => x ^^^ y) a b

/-- CBC-mode encryption over the block list: `C_i = E(P_i XOR C_{i-1})`
with `C_0` the IV (`modes.CBC(iv)` of the cryptography library). -/
def cbcEncrypt (E : List Nat → List Nat) : List Nat → List (List Nat) → List (List Nat)
  | _, [] => []
  | prev, p :: ps =>
    let c := E (xorBytes p prev)
    c :: cbcEncrypt E c ps

/-- CBC-mode decryption: `P_i = D(C_i) XOR C_{i-1}` with `C_0` the IV. -/
def cbcDecrypt (D : List Nat → List Nat) : List Nat → List (List Nat) → List (List Nat)
  | _, [] => []
  | prev, c :: cs => xorBytes (D c) prev :: cbcDecrypt D c cs

/-- The data-encryption key returned by `kms_client.generate_data_key`
(encryption.py 69-76): a plaintext copy and a wrapped (`CiphertextBlob`)
copy. -/
structure DataKey where
  plaintextKey : List Nat
  encryptedKey : List Nat

/-- The bytes `EncryptionService.encrypt_file` writes
(encryption.py 88-121): PKCS#7-pad the plaintext, AES-256-CBC encrypt it
under the plaintext data key with the random 16-byte IV, and emit
`[4-byte BE length of wrapped key][wrapped key][4-byte BE length of
IV][IV][ciphertext]`. -/
def encrypt_file_bytes (E : List Nat → List Nat → List Nat) (dk : DataKey)
    (iv : List Nat) (plaintext : List Nat) : List Nat :=
  let padded := pkcs7Pad plaintext
  let ciphertext := (cbcEncrypt (E dk.plaintextKey) iv (chunk16 padded)).flatten
  be32 dk.encryptedKey.length ++ dk.encryptedKey ++ be32 iv.length ++ iv ++ ciphertext

/-- The bytes `EncryptionService.decrypt_file` recovers
(encryption.py 194-239): read the length-prefixed wrapped key and IV, ask
the key-management service to unwrap the key, CBC-decrypt the remaining
bytes, strip the PKCS#7 padding.  `none` models a raised
`EncryptionFailedError`. -/
def decrypt_file_bytes (D : List Nat → List Nat → List Nat)
    (kmsUnwrap : List Nat → Option (List Nat)) (file : List Nat) :
    Option (List Nat) :=
  let keyLen := readBe32 (file.take 4)
  let r1 := file.drop 4
  let encKey := r1.take keyLen
  let r2 := r1.drop keyLen
  let ivLen := readBe32 (r2.take 4)
  let r3 := r2.drop 4
  let iv := r3.take ivLen
  let ciphertext := r3.drop ivLen
  match kmsUnwrap encKey with
  | none => none
  | some pk => pkcs7Unpad ((cbcDecrypt (D pk) iv (chunk16 ciphertext)).flatten)

/-! ## Spec-side predicates and concrete demonstration inputs -/

/-- The AES-256-CBC ciphertext of the padded plaintext, as written after
the two length-prefixed fields of the artifact. -/
def cbc_ciphertext (E : List Nat → List Nat → List Nat) (dk : DataKey)
    (iv plaintext : List Nat) : List Nat :=
  (cbcEncrypt (E dk.plaintextKey) iv (chunk16 (pkcs7Pad plaintext))).flatten

/-- The spec's description of retention expiry: whole-day age of the
key-embedded date against the retention window of the first matching
tier (1st of a month: 365 days; else Sunday: 90 days; else: 30 days). -/
def expiredByPolicy (now : Instant) (d : Date) : Prop :=
  (d.day = 1 ∧ ((now.days : Int) - (rataDie d : Int)) > 365)
  ∨ (d.day ≠ 1 ∧ pyWeekday d = 6 ∧ ((now.days : Int) - (rataDie d : Int)) > 90)
  ∨ (d.day ≠ 1 ∧ pyWeekday d ≠ 6 ∧ ((now.days : Int) - (rataDie d : Int)) > 30)

/-- A function failing twice with a transient error, then succeeding. -/
def failTwiceThenOk : Nat → Attempt Nat :=
  fun i => if i < 2 then .error (.transientError "t") else .ok 42

/-- A function failing on every invocation with a transient error. -/
def failAlways : Nat → Attempt Nat := fun _ => .error (.transientError "boom")

/-- An `s3_client.put_object` outcome sequence that fails with a transient
(throttling) client error on the first attempt and would succeed on every
later attempt. -/
def transientThenOk : Nat → Attempt Unit :=
  fun i => if i = 0 then .error (.clientError "Throttling") else .ok ()

/-- The identity block cipher, a valid instantiation of the abstract
AES-256 permutation. -/
def idBlockCipher : List Nat → List Nat → List Nat := fun _ b => b

def demoDataKey : DataKey := ⟨[7], [9]⟩

def demoUnwrap : List Nat → Option (List Nat) :=
  fun k => if k = [9] then some [7] else none

def demoIv : List Nat := List.replicate 16 0

/-- A recovery environment in which every external call succeeds. -/
def demoRecoveryEnv : RecoveryEnv :=
  { headObject := .ok "abc"
    s3Download := fun _ => .ok ()
    decryptStep := fun _ => .ok ()
    decompress := .ok
    psql := .ok "" }

/-- A backup object key for the given date segment. -/
def demoKey (seg : String) : String :=
  "production/" ++ seg ++ "/db_backup.sql.gz.enc"

/-- 2025-10-17 (a Friday) at 02:00 UTC.  `739541 = rataDie 2025-10-17`. -/
def retentionDemoNow : Instant := ⟨739541, 7200⟩

/-- Five objects aged 35-39 whole days on 2025-10-17: dated Monday
2025-09-08 through Friday 2025-09-12 — no 1st-of-month, no Sunday. -/
def retentionDemoOld : List S3Object :=
  [⟨demoKey "2025-09-08", 100⟩, ⟨demoKey "2025-09-09", 100⟩,
   ⟨demoKey "2025-09-10", 100⟩, ⟨demoKey "2025-09-11", 100⟩,
   ⟨demoKey "2025-09-12", 100⟩]

/-- Five objects aged 0-4 whole days on 2025-10-17: dated Monday
2025-10-13 through Friday 2025-10-17 — no 1st-of-month, no Sunday. -/
def retentionDemoNew : List S3Object :=
  [⟨demoKey "2025-10-13", 100⟩, ⟨demoKey "2025-10-14", 100⟩,
   ⟨demoKey "2025-10-15", 100⟩, ⟨demoKey "2025-10-16", 100⟩,
   ⟨demoKey "2025-10-17", 100⟩]

/-- Seven successful and three failed ledger rows, all in-window for any
cutoff at most 5. -/
def demoLedger : List BackupRecord :=
  List.replicate 7 ⟨5, .success⟩ ++ List.replicate 3 ⟨5, .failed⟩

/-! # Theorems -/

/-! ## Retry combinator lemmas -/

theorem retryLoop_exhaust (retryable : Exc → Bool) (f : Nat → Attempt α)
    (err : Nat → Exc) :
    ∀ (n calls : Nat) (lastExc : Exc),
      (∀ i, calls ≤ i → i < calls + n →
        f i = .error (err i) ∧ retryable (err i) = true) →
      retryLoop retryable f n calls lastExc
        = (.error (if n = 0 then lastExc else err (calls + n - 1)), calls + n) := by
  intro n
  induction n with
  | zero => intro calls lastExc _; simp [retryLoop]
  | succ n ih =>
    intro calls lastExc h
    have h0 := h calls (Nat.le_refl _) (by omega)
    rw [retryLoop, h0.1]
    simp only [h0.2, if_true]
    rw [ih (calls + 1) (err calls) (fun i h1 h2 => h i (by omega) (by omega))]
    cases n with
    | zero => simp
    | succ m =>
      simp only [Nat.succ_ne_zero, if_false]
      have e1 : calls + 1 + (m + 1) - 1 = calls + (m + 1 + 1) - 1 := by omega
      have e2 : calls + 1 + (m + 1) = calls + (m + 1 + 1) := by omega
      rw [e1, e2]

theorem retryLoop_success (retryable : Exc → Bool) (f : Nat → Attempt α) (a : α) :
    ∀ (n calls k : Nat) (lastExc : Exc),
      calls ≤ k → k < calls + n →
      (∀ i, calls ≤ i → i < k → ∃ e, f i = .error e ∧ retryable e = true) →
      f k = .ok a →
      retryLoop retryable f n calls lastExc = (.ok a, k + 1) := by
  intro n
  induction n with
  | zero => intro calls k lastExc h1 h2 _ _; omega
  | succ n ih =>
    intro calls k lastExc h1 h2 h3 h4
    rcases Nat.eq_or_lt_of_le h1 with heq | hlt
    · subst heq
      rw [retryLoop, h4]
    · obtain ⟨e, he, hr⟩ := h3 calls (Nat.le_refl _) hlt
      rw [retryLoop, he]
      simp only [hr, if_true]
      exact ih (calls + 1) k e hlt (by omega) (fun i hi1 hi2 => h3 i (by omega) hi2) h4

theorem retryLoop_nonretryable (retryable : Exc → Bool) (f : Nat → Attempt α)
    (e : Exc) :
    ∀ (n calls k : Nat) (lastExc : Exc),
      calls ≤ k → k < calls + n →
      (∀ i, calls ≤ i → i < k → ∃ e', f i = .error e' ∧ retryable e' = true) →
      f k = .error e → retryable e = false →
      retryLoop retryable f n calls lastExc = (.error e, k + 1) := by
  intro n
  induction n with
  | zero => intro calls k lastExc h1 h2 _ _ _; omega
  | succ n ih =>
    intro calls k lastExc h1 h2 h3 h4 h5
    rcases Nat.eq_or_lt_of_le h1 with heq | hlt
    · subst heq
      rw [retryLoop, h4]
      simp [h5]
    · obtain ⟨e', he', hr'⟩ := h3 calls (Nat.le_refl _) hlt
      rw [retryLoop, he']
      simp only [hr', if_true]
      exact ih (calls + 1) k e' hlt (by omega) (fun i hi1 hi2 => h3 i (by omega) hi2)
        h4 h5

/-- C7: a function wrapped with `retry_with_exponential_backoff` and
`max_retries = N` is invoked exactly N+1 times and the last exception is
re-raised when every invocation fails with a retryable-kind exception; it
returns the success value after exactly k+1 invocations when invocation k
(0-based, k ≤ N) succeeds after retryable-kind failures; and a
non-retryable exception propagates immediately with no further
invocations. -/
theorem retry_semantics (retryable : Exc → Bool) (N : Nat) (f : Nat → Attempt α)
    (err : Nat → Exc) :
    ((∀ i, i ≤ N → f i = .error (err i) ∧ retryable (err i) = true) →
      retry_with_exponential_backoff retryable N f = (.error (err N), N + 1))
    ∧ (∀ k a, k ≤ N →
        (∀ i, i < k → f i = .error (err i) ∧ retryable (err i) = true) →
        f k = .ok a →
        retry_with_exponential_backoff retryable N f = (.ok a, k + 1))
    ∧ (∀ j e, j ≤ N →
        (∀ i, i < j → f i = .error (err i) ∧ retryable (err i) = true) →
        f j = .error e → retryable e = false →
        retry_with_exponential_backoff retryable N f = (.error e, j + 1)) := by
  refine ⟨?_, ?_, ?_⟩
  · intro h
    have h0 := h 0 (Nat.zero_le _)
    rw [retry_with_exponential_backoff, h0.1]
    simp only [h0.2, if_true]
    rw [retryLoop_exhaust retryable f err N 1 (err 0)
      (fun i h1 h2 => h i (by omega))]
    cases N with
    | zero => simp
    | succ m =>
      simp only [Nat.succ_ne_zero, if_false]
      have e1 : 1 + (m + 1) - 1 = m + 1 := by omega
      have e2 : 1 + (m + 1) = m + 1 + 1 := by omega
      rw [e1, e2]
  · intro k a hk hfail hok
    cases k with
    | zero => rw [retry_with_exponential_backoff, hok]
    | succ m =>
      have h0 := hfail 0 (Nat.succ_pos _)
      rw [retry_with_exponential_backoff, h0.1]
      simp only [h0.2, if_true]
      exact retryLoop_success retryable f a N 1 (m + 1) (err 0) (by omega) (by omega)
        (fun i h1 h2 => ⟨err i, hfail i h2⟩) hok
  · intro j e hj hfail herr hnr
    cases j with
    | zero =>
      rw [retry_with_exponential_backoff, herr]
      simp [hnr]
    | succ m =>
      have h0 := hfail 0 (Nat.succ_pos _)
      rw [retry_with_exponential_backoff, h0.1]
      simp only [h0.2, if_true]
      exact retryLoop_nonretryable retryable f e N 1 (m + 1) (err 0) (by omega)
        (by omega) (fun i h1 h2 => ⟨err i, hfail i h2⟩) herr hnr

theorem retry_semantics_witness :
    retry_with_exponential_backoff isRetryableDefault 3 failTwiceThenOk = (.ok 42, 3)
    ∧ retry_with_exponential_backoff isRetryableDefault 2 failAlways
        = (.error (.transientError "boom"), 3) :=
  ⟨(retry_semantics isRetryableDefault 3 failTwiceThenOk
      (fun _ => .transientError "t")).2.1 2 42 (by decide) (by decide) (by decide),
   (retry_semantics isRetryableDefault 2 failAlways
      (fun _ => .transientError "boom")).1 (by decide)⟩

/-! ## C1: the retry wrapper around the object-store / key-management
operations -/

/-- C1: contrary to the claim, a `BackupService.upload_to_s3` call whose
underlying `put_object` fails transiently on the first attempt and would
succeed on the second raises `BackupFailedError` after exactly one
invocation: the body converts the client error into `BackupFailedError`,
which is not in the decorator's retryable `exceptions` tuple, so the
wrapper never re-invokes the operation. -/
theorem upload_to_s3_never_retries_transient_failures :
    upload_to_s3 transientThenOk
      = (.error (.backupFailed ("S3 upload failed: " ++ "Throttling")), 1)
    ∧ transientThenOk 1 = .ok ()
    ∧ isRetryableDefault (.backupFailed ("S3 upload failed: " ++ "Throttling"))
        = false :=
  ⟨rfl, rfl, rfl⟩

/-! ## C2: the production restore gate -/

/-- C2: for every `sql_file` and every possible behaviour of the external
restore utility, `restore_database` with `target_db = "production"` and
`skip_confirmation = false` raises `RestoreFailedError` and the `psql`
subprocess is invoked zero times. -/
theorem restore_database_production_gate (sqlFile : String) (psql : PsqlOutcome) :
    restore_database sqlFile "production" false psql
      = { result := .error (.restoreFailed productionGateMsg), psqlCalls := 0 } :=
  rfl

/-! ## C3: scratch-directory cleanup in `create_backup` -/

/-- C3 counterexample: when the dump subprocess exits non-zero
(`subprocess.CalledProcessError`), `create_backup` propagates
`BackupFailedError` but does NOT remove the scratch directory: the
`except subprocess.CalledProcessError` clause (backup.py 129-143) has no
cleanup, unlike the `OSError` and `Exception` clauses. -/
theorem create_backup_dump_nonzero_exit_leaks_scratch_dir :
    (create_backup ⟨.nonZeroExit 1 "pg_dump: fatal" "", .ok, .ok, .ok⟩).tempDirRemoved
      = false
    ∧ (create_backup ⟨.nonZeroExit 1 "pg_dump: fatal" "", .ok, .ok, .ok⟩).outcome
        = .error (.backupFailed ("Database dump failed: " ++ "pg_dump: fatal")) :=
  ⟨rfl, rfl⟩

/-- C3 amended: the scratch directory is removed exactly on the failing
runs whose raised error is not a dump non-zero exit
(`subprocess.CalledProcessError`); on a dump non-zero exit it leaks, and
on success it is deliberately left for the caller. -/
theorem create_backup_scratch_dir_cleanup (env : BackupEnv) :
    (create_backup env).tempDirRemoved
      = (!(exceptIsOk (create_backup env).outcome) && !(dumpNonZeroExit env)) := by
  rcases env with ⟨d, c, k, m⟩
  cases d <;> cases c <;> cases k <;> cases m <;> rfl

/-! ## C5: the recovery workflow and the integrity-verification step -/

/-- C5: `full_recovery_workflow` never invokes `verify_backup_integrity`
(the call at recovery.py 485 is commented out) on any run, success or
failure; it does read the stored checksum from the object metadata
(exactly one `head_object` call on every run) and raises
`RestoreFailedError` when that checksum is absent or empty. -/
theorem full_recovery_workflow_never_verifies_integrity
    (env : RecoveryEnv) (targetDb : String) (skipConfirmation : Bool) :
    (full_recovery_workflow env targetDb skipConfirmation).verifyIntegrityCalls = 0
    ∧ (full_recovery_workflow env targetDb skipConfirmation).headObjectCalls = 1
    ∧ (full_recovery_workflow { env with headObject := .ok "" } targetDb
          skipConfirmation).outcome
        = .error (wrapRecoveryExc (.restoreFailed "No checksum found in S3 metadata")) := by
  refine ⟨?_, ?_, rfl⟩ <;>
  · unfold full_recovery_workflow
    repeat' split
    all_goals rfl

/-! ## C10: the operator restore command -/

/-- The production gate of `restore_database`, reused below. -/
theorem restore_database_production_eq (sqlFile : String) (psql : PsqlOutcome) :
    restore_database sqlFile "production" false psql
      = { result := .error (.restoreFailed productionGateMsg), psqlCalls := 0 } :=
  rfl

/-- On a production target without `--skip-confirmation`, every
`full_recovery_workflow` run fails and never reaches the `psql`
utility. -/
theorem full_recovery_workflow_production_no_skip (env : RecoveryEnv) :
    (full_recovery_workflow env "production" false).psqlCalls = 0
    ∧ ∃ e, (full_recovery_workflow env "production" false).outcome = .error e := by
  constructor
  · unfold full_recovery_workflow
    repeat' split
    all_goals first
      | rfl
      | (rename_i hres
         rw [restore_database_production_eq] at hres
         simp_all)
  · unfold full_recovery_workflow
    repeat' split
    all_goals first
      | exact ⟨_, rfl⟩
      | (rename_i hres
         rw [restore_database_production_eq] at hres
         simp_all)

/-- C10: the operator restore command with target `production` and
without `--skip-confirmation` never invokes the external restore utility,
regardless of what the operator types: any input other than the exact
phrase aborts before calling the workflow; the exact phrase
`RESTORE PRODUCTION` calls `full_recovery_workflow` (once) with
`skip_confirmation` still false, which the `restore_database` gate then
rejects — so the command never reports a successful restore. -/
theorem restore_command_production_gate (env : RecoveryEnv)
    (dateStr typed : String) :
    (commandHandle env dateStr "production" false typed).psqlCalls = 0
    ∧ (commandHandle env dateStr "production" false typed).workflowCalls
        = (if (parseDate dateStr).isSome = true ∧ typed = confirmationPhrase
           then 1 else 0)
    ∧ (commandHandle env dateStr "production" false typed).outcome
        ≠ .restored := by
  obtain ⟨hcalls, e, houtcome⟩ := full_recovery_workflow_production_no_skip env
  unfold commandHandle
  cases hp : parseDate dateStr with
  | none => simp [hp]
  | some d =>
    by_cases ht : typed = confirmationPhrase
    · have hgate : ¬("production" = "production" ∧ ¬false = true ∧
          typed ≠ confirmationPhrase) := by
        simp [ht]
      rw [if_neg hgate]
      rcases hw : full_recovery_workflow env "production" false with ⟨o, hoc, vic, pc⟩
      rw [hw] at hcalls houtcome
      simp only at hcalls houtcome
      subst hcalls
      subst houtcome
      simp [ht]
    · have hgate : ("production" = "production" ∧ ¬false = true ∧
          typed ≠ confirmationPhrase) := by
        simp [ht]
      rw [if_pos hgate]
      simp [ht]

/-! ## Byte-layout and cipher lemmas -/

theorem length_be32 (n : Nat) : (be32 n).length = 4 := rfl

theorem readBe32_be32 (n : Nat) (h : n < 2 ^ 32) : readBe32 (be32 n) = n := by
  simp only [be32, readBe32]
  omega

theorem chunk16_nil : chunk16 [] = [] := by
  rw [chunk16]
  simp

theorem chunk16_cons (b rest : List Nat) (h : b.length = 16) :
    chunk16 (b ++ rest) = b :: chunk16 rest := by
  have hne : b ++ rest ≠ [] := by
    intro hh
    have := congrArg List.length hh
    simp [h] at this
  rw [chunk16, if_neg hne, List.take_left' h, List.drop_left' h]

theorem chunk16_flatten (bs : List Nat) : (chunk16 bs).flatten = bs := by
  by_cases h : bs = []
  · subst h
    rw [chunk16_nil]
    rfl
  · rw [chunk16, if_neg h]
    have ih := chunk16_flatten (bs.drop 16)
    simp [ih]
termination_by bs.length
decreasing_by
  have : 0 < bs.length := List.length_pos.mpr h
  simp only [List.length_drop]
  omega

theorem chunk16_of_flatten (bl : List (List Nat))
    (h : ∀ b ∈ bl, b.length = 16) : chunk16 bl.flatten = bl := by
  induction bl with
  | nil => exact chunk16_nil
  | cons b bl ih =>
    rw [List.flatten_cons, chunk16_cons b bl.flatten (h b (by simp))]
    rw [ih (fun x hx => h x (by simp [hx]))]

theorem chunk16_spec (k : Nat) :
    ∀ bs : List Nat, bs.length = 16 * k →
      (chunk16 bs).length = k ∧ ∀ b ∈ chunk16 bs, b.length = 16 := by
  induction k with
  | zero =>
    intro bs h
    have hbs : bs = [] := List.eq_nil_of_length_eq_zero (by omega)
    subst hbs
    simp [chunk16_nil]
  | succ k ih =>
    intro bs h
    have hne : bs ≠ [] := by
      intro hh
      subst hh
      simp at h
    rw [chunk16, if_neg hne]
    have hdrop : (bs.drop 16).length = 16 * k := by
      simp only [List.length_drop]
      omega
    obtain ⟨ih1, ih2⟩ := ih (bs.drop 16) hdrop
    refine ⟨by simp [ih1], ?_⟩
    intro b hb
    rcases List.mem_cons.mp hb with hb | hb
    · subst hb
      simp only [List.length_take]
      omega
    · exact ih2 b hb

theorem flatten_length_of_blocks (bl : List (List Nat))
    (h : ∀ b ∈ bl, b.length = 16) : bl.flatten.length = 16 * bl.length := by
  induction bl with
  | nil => rfl
  | cons b bl ih =>
    simp only [List.flatten_cons, List.length_append, List.length_cons]
    rw [h b (by simp), ih (fun x hx => h x (by simp [hx]))]
    ring

theorem xorBytes_length (a b : List Nat) :
    (xorBytes a b).length = min a.length b.length := by
  simp [xorBytes, List.length_zipWith]

theorem xorBytes_xorBytes_cancel :
    ∀ (a b : List Nat), a.length ≤ b.length → xorBytes (xorBytes a b) b = a := by
  intro a
  induction a with
  | nil => intro b _; rfl
  | cons x xs ih =>
    intro b hb
    cases b with
    | nil => simp at hb
    | cons y ys =>
      simp only [xorBytes, List.zipWith_cons_cons]
      rw [Nat.xor_cancel_right]
      have := ih ys (by simpa using hb)
      simp only [xorBytes] at this
      rw [this]

theorem cbcEncrypt_length (E : List Nat → List Nat) :
    ∀ (ps : List (List Nat)) (prev : List Nat),
      (cbcEncrypt E prev ps).length = ps.length := by
  intro ps
  induction ps with
  | nil => intro prev; rfl
  | cons p ps ih =>
    intro prev
    simp [cbcEncrypt, ih]

theorem cbcEncrypt_blocks (E : List Nat → List Nat)
    (hE : ∀ b, b.length = 16 → (E b).length = 16) :
    ∀ (ps : List (List Nat)) (prev : List Nat),
      (∀ p ∈ ps, p.length = 16) → prev.length = 16 →
      ∀ c ∈ cbcEncrypt E prev ps, c.length = 16 := by
  intro ps
  induction ps with
  | nil =>
    intro prev _ _ c hc
    simp [cbcEncrypt] at hc
  | cons p ps ih =>
    intro prev hps hprev c hc
    have hxor : (xorBytes p prev).length = 16 := by
      rw [xorBytes_length, hps p (by simp), hprev]
      simp
    have hc16 : (E (xorBytes p prev)).length = 16 := hE _ hxor
    simp only [cbcEncrypt, List.mem_cons] at hc
    rcases hc with hc | hc
    · subst hc
      exact hc16
    · exact ih (E (xorBytes p prev)) (fun q hq => hps q (by simp [hq])) hc16 c hc

theorem cbc_roundtrip (E D : List Nat → List Nat)
    (hD : ∀ b, b.length = 16 → D (E b) = b)
    (hE : ∀ b, b.length = 16 → (E b).length = 16) :
    ∀ (ps : List (List Nat)) (prev : List Nat),
      (∀ p ∈ ps, p.length = 16) → prev.length = 16 →
      cbcDecrypt D prev (cbcEncrypt E prev ps) = ps := by
  intro ps
  induction ps with
  | nil => intro prev _ _; rfl
  | cons p ps ih =>
    intro prev hps hprev
    have hp16 : p.length = 16 := hps p (by simp)
    have hxor : (xorBytes p prev).length = 16 := by
      rw [xorBytes_length, hp16, hprev]
      simp
    simp only [cbcEncrypt, cbcDecrypt]
    rw [hD _ hxor, xorBytes_xorBytes_cancel p prev (by rw [hp16, hprev])]
    rw [ih (E (xorBytes p prev)) (fun q hq => hps q (by simp [hq])) (hE _ hxor)]

theorem pkcs7Unpad_append (bs : List Nat) (p : Nat) (h1 : 1 ≤ p) (h2 : p ≤ 16)
    (h3 : (bs.length + p) % 16 = 0) :
    pkcs7Unpad (bs ++ List.replicate p p) = some bs := by
  have hlen : (bs ++ List.replicate p p).length = bs.length + p := by simp
  have hlast : (bs ++ List.replicate p p).getLast? = some p := by
    obtain ⟨q, rfl⟩ : ∃ q, p = q + 1 := ⟨p - 1, by omega⟩
    rw [List.replicate_succ', ← List.append_assoc]
    exact List.getLast?_concat _
  simp only [pkcs7Unpad, hlast]
  have hsub : (bs ++ List.replicate p p).length - p = bs.length := by
    rw [hlen]
    omega
  rw [if_pos]
  · rw [hsub, List.take_left' rfl]
  · refine ⟨by rw [hlen]; exact h3, h1, h2, by rw [hlen]; omega, ?_⟩
    intro x hx
    rw [hsub, List.drop_left' rfl] at hx
    exact (List.mem_replicate.mp hx).2

theorem pkcs7_roundtrip (bs : List Nat) : pkcs7Unpad (pkcs7Pad bs) = some bs := by
  have h : pkcs7Pad bs
      = bs ++ List.replicate (16 - bs.length % 16) (16 - bs.length % 16) := rfl
  rw [h]
  exact pkcs7Unpad_append bs _ (by omega) (by omega) (by omega)

theorem pkcs7Pad_length (bs : List Nat) :
    (pkcs7Pad bs).length = 16 * (bs.length / 16 + 1) := by
  simp only [pkcs7Pad, List.length_append, List.length_replicate]
  omega

/-! ## C4: the encrypt/decrypt round trip -/

/-- C4: for every byte string (including the empty one), decrypting the
artifact produced by `encrypt_file` recovers exactly the original bytes,
given that the key-management decrypt inverts the data-key wrap
(`hunwrap`), that AES under the data key is a length-preserving
permutation on 16-byte blocks (`hD`, `hE`), that the wrapped key is less
than 2^32 bytes long (its length must fit the 4-byte prefix) and that the
IV has the 16 bytes `secrets.token_bytes(16)` produces. -/
theorem encrypt_decrypt_roundtrip
    (E D : List Nat → List Nat → List Nat) (dk : DataKey)
    (iv plaintext : List Nat) (kmsUnwrap : List Nat → Option (List Nat))
    (hunwrap : kmsUnwrap dk.encryptedKey = some dk.plaintextKey)
    (hD : ∀ b, b.length = 16 → D dk.plaintextKey (E dk.plaintextKey b) = b)
    (hE : ∀ b, b.length = 16 → (E dk.plaintextKey b).length = 16)
    (hklen : dk.encryptedKey.length < 2 ^ 32)
    (hiv : iv.length = 16) :
    decrypt_file_bytes D kmsUnwrap (encrypt_file_bytes E dk iv plaintext)
      = some plaintext := by
  have hpadlen : (pkcs7Pad plaintext).length = 16 * (plaintext.length / 16 + 1) :=
    pkcs7Pad_length plaintext
  obtain ⟨hblen, hb16⟩ := chunk16_spec (plaintext.length / 16 + 1) _ hpadlen
  have hctb : ∀ c ∈ cbcEncrypt (E dk.plaintextKey) iv (chunk16 (pkcs7Pad plaintext)),
      c.length = 16 :=
    cbcEncrypt_blocks _ hE _ iv hb16 hiv
  simp only [encrypt_file_bytes, decrypt_file_bytes, List.append_assoc]
  rw [List.take_left' (length_be32 _), readBe32_be32 _ hklen,
    List.drop_left' (length_be32 _), List.take_left' rfl, List.drop_left' rfl,
    List.take_left' (length_be32 _), readBe32_be32 _ (by rw [hiv]; norm_num),
    List.drop_left' (length_be32 _), List.take_left, List.drop_left]
  simp only [hunwrap]
  rw [chunk16_of_flatten _ hctb]
  rw [cbc_roundtrip (E dk.plaintextKey) (D dk.plaintextKey) hD hE _ iv hb16 hiv]
  rw [chunk16_flatten]
  exact pkcs7_roundtrip plaintext

theorem encrypt_decrypt_roundtrip_witness :
    decrypt_file_bytes idBlockCipher demoUnwrap
      (encrypt_file_bytes idBlockCipher demoDataKey demoIv [1, 2, 3])
      = some [1, 2, 3] :=
  encrypt_decrypt_roundtrip idBlockCipher idBlockCipher demoDataKey demoIv
    [1, 2, 3] demoUnwrap rfl (fun _ _ => rfl) (fun _ h => h) (by decide) rfl

/-! ## C8: the on-object-store byte layout -/

/-- C8: the encrypted artifact is exactly
`[4-byte BE wrapped-key length][wrapped key][4-byte BE 16][16-byte IV]
[ciphertext]`, and the AES-256-CBC ciphertext of the PKCS#7-padded
n-byte plaintext has exactly `16 * (n / 16 + 1)` bytes. -/
theorem encrypt_file_layout (E : List Nat → List Nat → List Nat) (dk : DataKey)
    (iv plaintext : List Nat)
    (hE : ∀ b, b.length = 16 → (E dk.plaintextKey b).length = 16)
    (hiv : iv.length = 16) :
    encrypt_file_bytes E dk iv plaintext
      = be32 dk.encryptedKey.length ++ dk.encryptedKey ++ be32 16 ++ iv
        ++ cbc_ciphertext E dk iv plaintext
    ∧ (cbc_ciphertext E dk iv plaintext).length
        = 16 * (plaintext.length / 16 + 1) := by
  have hpadlen : (pkcs7Pad plaintext).length = 16 * (plaintext.length / 16 + 1) :=
    pkcs7Pad_length plaintext
  obtain ⟨hblen, hb16⟩ := chunk16_spec (plaintext.length / 16 + 1) _ hpadlen
  constructor
  · rw [encrypt_file_bytes, hiv]
    rfl
  · rw [cbc_ciphertext,
      flatten_length_of_blocks _ (cbcEncrypt_blocks _ hE _ iv hb16 hiv),
      cbcEncrypt_length, hblen]

theorem encrypt_file_layout_witness :
    encrypt_file_bytes idBlockCipher demoDataKey demoIv [1, 2, 3]
      = be32 demoDataKey.encryptedKey.length ++ demoDataKey.encryptedKey
        ++ be32 16 ++ demoIv
        ++ cbc_ciphertext idBlockCipher demoDataKey demoIv [1, 2, 3]
    ∧ (cbc_ciphertext idBlockCipher demoDataKey demoIv [1, 2, 3]).length
        = 16 * ((3 : Nat) / 16 + 1) :=
  encrypt_file_layout idBlockCipher demoDataKey demoIv [1, 2, 3]
    (fun _ h => h) rfl

/-! ## C6: the retention sweep -/

/-- Python `timedelta.days` of `now - midnight(d)` is the plain day
difference whenever `now.secs` is a valid seconds-into-day value: the
flooring division cancels the time of day. -/
theorem timedeltaDays_eq (now : Instant) (d : Date) (hs : now.secs < 86400) :
    timedeltaDays now d = (now.days : Int) - (rataDie d : Int) := by
  unfold timedeltaDays
  rw [Int.fdiv_eq_ediv _ (by norm_num)]
  omega

theorem shouldDeleteBackup_iff (now : Instant) (hs : now.secs < 86400) (d : Date) :
    shouldDeleteBackup now d = true ↔ expiredByPolicy now d := by
  simp only [shouldDeleteBackup]
  rw [timedeltaDays_eq now d hs]
  unfold expiredByPolicy
  by_cases h1 : d.day = 1 <;> by_cases h2 : pyWeekday d = 6 <;>
    simp [h1, h2, retentionDaysMonthly, retentionDaysWeekly, retentionDaysDaily]

theorem mem_backups_to_delete (now : Instant) (hs : now.secs < 86400)
    (objs : List S3Object) (o : S3Object) :
    o ∈ backups_to_delete now objs
      ↔ o ∈ objs ∧ ∃ d, parseKeyDate o.key = some d ∧ expiredByPolicy now d := by
  unfold backups_to_delete
  rw [List.mem_filter]
  refine and_congr_right fun _ => ?_
  cases hp : parseKeyDate o.key with
  | none => simp [hp]
  | some d =>
    show shouldDeleteBackup now d = true ↔ _
    rw [shouldDeleteBackup_iff now hs d]
    constructor
    · intro h
      exact ⟨d, rfl, h⟩
    · rintro ⟨d', hd', h⟩
      cases hd'
      exact h

/-- C6: the retention sweep selects exactly the objects whose key parses
to a date whose whole-day age exceeds the first matching tier's retention
(malformed keys are never selected); and on 5 objects aged 35-39 days
plus 5 objects aged 0-4 days, none dated a 1st-of-month or a Sunday,
exactly the 5 older objects are selected. -/
theorem enforce_retention_selects_exactly_expired :
    (∀ (now : Instant), now.secs < 86400 →
      ∀ (objs : List S3Object) (o : S3Object),
        (o ∈ backups_to_delete now objs
          ↔ o ∈ objs ∧ ∃ d, parseKeyDate o.key = some d ∧ expiredByPolicy now d))
    ∧ backups_to_delete retentionDemoNow (retentionDemoOld ++ retentionDemoNew)
        = retentionDemoOld := by
  exact ⟨fun now hs objs o => mem_backups_to_delete now hs objs o, by decide⟩

theorem enforce_retention_selects_exactly_expired_witness :
    (⟨demoKey "2025-09-08", 100⟩ : S3Object)
        ∈ backups_to_delete retentionDemoNow (retentionDemoOld ++ retentionDemoNew)
      ↔ (⟨demoKey "2025-09-08", 100⟩ : S3Object)
          ∈ retentionDemoOld ++ retentionDemoNew
        ∧ ∃ d, parseKeyDate (⟨demoKey "2025-09-08", 100⟩ : S3Object).key = some d
            ∧ expiredByPolicy retentionDemoNow d :=
  enforce_retention_selects_exactly_expired.1 retentionDemoNow (by decide)
    (retentionDemoOld ++ retentionDemoNew) ⟨demoKey "2025-09-08", 100⟩

/-! ## C9: the ledger success rate -/

/-- C9: `get_success_rate` computes exactly
`successful_count_in_window / total_count_in_window * 100` and returns 0
for an empty window; 7 successful and 3 failed in-window rows give 70. -/
theorem get_success_rate_correct :
    (∀ (records : List BackupRecord) (cutoff : Int),
      get_success_rate records cutoff = success_rate_spec records cutoff)
    ∧ get_success_rate demoLedger (-20) = 70
    ∧ get_success_rate [] (-20) = 0 := by
  refine ⟨?_, ?_, rfl⟩
  · intro records cutoff
    simp only [get_success_rate, success_rate_spec]
    have hfilter :
        (records.filter fun r => decide (cutoff ≤ r.backupDate)).filter
            (fun r => r.status == .success)
          = records.filter fun r =>
              decide (cutoff ≤ r.backupDate) && r.status == .success := by
      rw [List.filter_filter]
      exact List.filter_congr fun r _ => Bool.and_comm _ _
    rw [hfilter]
  · simp [get_success_rate, demoLedger]
    norm_num

/-! ## Remaining witnesses -/

theorem restore_database_production_gate_witness :
    restore_database "backup.sql" "production" false (.ok "")
      = { result := .error (.restoreFailed productionGateMsg), psqlCalls := 0 } :=
  restore_database_production_gate "backup.sql" (.ok "")

theorem create_backup_scratch_dir_cleanup_witness :
    (create_backup ⟨.timeout 1800, .ok, .ok, .ok⟩).tempDirRemoved
      = (!(exceptIsOk (create_backup ⟨.timeout 1800, .ok, .ok, .ok⟩).outcome)
          && !(dumpNonZeroExit ⟨.timeout 1800, .ok, .ok, .ok⟩)) :=
  create_backup_scratch_dir_cleanup ⟨.timeout 1800, .ok, .ok, .ok⟩

theorem full_recovery_workflow_never_verifies_integrity_witness :
    (full_recovery_workflow demoRecoveryEnv "staging" true).verifyIntegrityCalls = 0
    ∧ (full_recovery_workflow demoRecoveryEnv "staging" true).headObjectCalls = 1
    ∧ (full_recovery_workflow { demoRecoveryEnv with headObject := .ok "" }
          "staging" true).outcome
        = .error (wrapRecoveryExc (.restoreFailed "No checksum found in S3 metadata")) :=
  full_recovery_workflow_never_verifies_integrity demoRecoveryEnv "staging" true

theorem restore_command_production_gate_witness :
    (commandHandle demoRecoveryEnv "2025-11-06" "production" false
        "RESTORE PRODUCTION").psqlCalls = 0
    ∧ (commandHandle demoRecoveryEnv "2025-11-06" "production" false
          "RESTORE PRODUCTION").workflowCalls
        = (if (parseDate "2025-11-06").isSome = true
              ∧ "RESTORE PRODUCTION" = confirmationPhrase
           then 1 else 0)
    ∧ (commandHandle demoRecoveryEnv "2025-11-06" "production" false
          "RESTORE PRODUCTION").outcome ≠ .restored :=
  restore_command_production_gate demoRecoveryEnv "2025-11-06" "RESTORE PRODUCTION"

end MuslimCompanion
